import Mathlib

/-!
Verification of the fetch-state lifecycle of the easy-state-hook-examples
repository.

The repository's recurring component is a Resource Fetcher exposing a
`{loading, data, error}` state that is mutated by a `fetch(path)` operation
(`fetch-store-testing/src/fetchStore.js` for the reactive-store variant,
`poke-hook/src/useFetch.js` for the hook variant), plus a trivial Title
Holder (`titleStore` and `useTitle`).

Modelling choices:
- a JS object field that may be `undefined` is an `Option`;
- the decoded JSON payload and the caught error value are opaque type
  parameters `α` and `ε`;
- the outcome of the single awaited network call (`fetchJSON`) is an
  explicit `FetchOutcome`: either a decoded value or a thrown error
  (covering both network rejection and JSON-decode failure, which the
  source collapses into one `catch`);
- JS `try`/`catch`/`finally` is embedded by `tryCatchFinally` below, with
  explicit state passing and an `Option ε` for an exception escaping each
  block (a throw from `finally` replaces the pending exception, as in JS);
- one call to `fetch(path)` is summarised by `FetchRun`: the state right
  after the synchronous prefix (everything before the `await`), the list
  of request URLs issued, the final state, and the exception escaping the
  whole operation, if any.
-/

/-- The `{loading, data, error}` tuple exposed by a Resource Fetcher.
`α` is the type of decoded JSON payloads, `ε` the type of caught errors.
A `none` field is a JS `undefined` / absent property. -/
structure FetchState (α ε : Type) where
  loading : Option Bool
  data : Option α
  error : Option ε
deriving DecidableEq, Repr

/-- Outcome of the awaited `fetchJSON(baseURL + path)` call: a decoded
JSON value, or a thrown error (network rejection or non-decodable body). -/
inductive FetchOutcome (α ε : Type) where
  | success (d : α)
  | failure (e : ε)
deriving DecidableEq, Repr

/-- JS `try { body } catch (e) { handler } finally { fin }` over an
explicit state `σ`.  Each block returns the updated state together with
the exception it throws, if any.  `finally` always runs; an exception it
throws replaces whatever exception was pending. -/
def tryCatchFinally {σ ε : Type}
    (body : σ → σ × Option ε)
    (handler : ε → σ → σ × Option ε)
    (fin : σ → σ × Option ε)
    (s : σ) : σ × Option ε :=
  let r1 := body s
  let r2 :=
    match r1.2 with
    | none => (r1.1, (none : Option ε))
    | some e => handler e r1.1
  let r3 := fin r2.1
  (r3.1, match r3.2 with
    | some e => some e
    | none => r2.2)

/-- Summary of one `fetch(path)` call: the state after the synchronous
prefix (before the network call resolves), the request URLs issued, the
final state, and any exception escaping the operation boundary. -/
structure FetchRun (α ε : Type) where
  pending : FetchState α ε
  requests : List String
  final : FetchState α ε
  thrown : Option ε
deriving DecidableEq, Repr

/-- The `resource` object returned by `fetchStore(baseURL)` before any
`fetch` call: `loading`, `data` and `error` are all absent (the `store`
is created with only the `fetch` method). -/
def fetchStoreInit {α ε : Type} : FetchState α ε :=
  { loading := none, data := none, error := none }

/-- One call of `resource.fetch(path)` from `fetchStore.js`, given the
prior state `s` and the outcome `o` of the awaited network call:
`resource.loading = true`; then `try { resource.data = await
fetchJSON(baseURL + path); resource.error = undefined } catch (error)
{ resource.error = error } finally { resource.loading = false }`. -/
def fetchStoreRun {α ε : Type} (baseURL path : String)
    (s : FetchState α ε) (o : FetchOutcome α ε) : FetchRun α ε :=
  let pending : FetchState α ε := { s with loading := some true }
  let r := tryCatchFinally
    (fun st =>
      match o with
      | .success d => ({ st with data := some d, error := none }, none)
      | .failure e => (st, some e))
    (fun e st => ({ st with error := some e }, none))
    (fun st => ({ st with loading := some false }, none))
    pending
  { pending := pending
    requests := [baseURL ++ path]
    final := r.1
    thrown := r.2 }

/-- The hook state of `useFetch(baseURL)` right after `useState({})`:
an empty object, so all three fields are absent. -/
def useFetchInit {α ε : Type} : FetchState α ε :=
  { loading := none, data := none, error := none }

/-- Reducer `state => ({ ...state, loading: true })` from `useFetch.js`. -/
def useFetchSetLoadingTrue {α ε : Type} (st : FetchState α ε) : FetchState α ε :=
  { st with loading := some true }

/-- Reducer `state => ({ ...state, data, error: undefined })` from
`useFetch.js`. -/
def useFetchSetData {α ε : Type} (d : α) (st : FetchState α ε) : FetchState α ε :=
  { st with data := some d, error := none }

/-- Reducer `state => ({ ...state, error })` from `useFetch.js`. -/
def useFetchSetError {α ε : Type} (e : ε) (st : FetchState α ε) : FetchState α ε :=
  { st with error := some e }

/-- Reducer `state => ({ ...state, loading: false })` from `useFetch.js`. -/
def useFetchSetLoadingFalse {α ε : Type} (st : FetchState α ε) : FetchState α ε :=
  { st with loading := some false }

/-- One call of the `fetch` callback from `useFetch.js`, given the prior
hook state `s` and the outcome `o` of the awaited network call.  Each
`setState` uses a functional update, so the updates apply in program
order to the latest state. -/
def useFetchRun {α ε : Type} (baseURL path : String)
    (s : FetchState α ε) (o : FetchOutcome α ε) : FetchRun α ε :=
  let pending := useFetchSetLoadingTrue s
  let r := tryCatchFinally
    (fun st =>
      match o with
      | .success d => (useFetchSetData d st, none)
      | .failure e => (st, some e))
    (fun e st => (useFetchSetError e st, none))
    (fun st => (useFetchSetLoadingFalse st, none))
    pending
  { pending := pending
    requests := [baseURL ++ path]
    final := r.1
    thrown := r.2 }

/-!
Interleaving semantics for overlapping `fetch` calls.

`fetch` is an `async` function on a single-threaded event loop: it runs
atomically up to the `await`, suspends, and runs the continuation
atomically when the network call settles.  So one call contributes two
atomic steps to the event loop:
- `start url`: `resource.loading = true` and the issuing of the request
  to `url` (the synchronous prefix);
- `resolve o`: the continuation after the `await`, i.e. the remainder of
  the `try`/`catch`/`finally` for outcome `o`.
Two overlapping calls produce any order-preserving interleaving of their
step sequences.
-/

/-- One atomic event-loop step contributed by a `fetch` call. -/
inductive FetchStep (α ε : Type) where
  | start (url : String)
  | resolve (o : FetchOutcome α ε)
deriving DecidableEq, Repr

/-- Effect of one atomic step on the shared `resource` state.  The
`resolve` case is the post-`await` remainder of `fetch`'s body: on
success `resource.data = d; resource.error = undefined; resource.loading
= false`, on failure `resource.error = e; resource.loading = false`. -/
def applyFetchStep {α ε : Type} (s : FetchState α ε) :
    FetchStep α ε → FetchState α ε
  | .start _ => { s with loading := some true }
  | .resolve (.success d) =>
      { s with data := some d, error := none, loading := some false }
  | .resolve (.failure e) =>
      { s with error := some e, loading := some false }

/-- Run a sequence of atomic steps over the shared state. -/
def runFetchSteps {α ε : Type} (s : FetchState α ε) :
    List (FetchStep α ε) → FetchState α ε
  | [] => s
  | st :: rest => runFetchSteps (applyFetchStep s st) rest

/-- Requests issued by a sequence of steps (each `start` issues one). -/
def stepsRequests {α ε : Type} : List (FetchStep α ε) → List String
  | [] => []
  | .start url :: rest => url :: stepsRequests rest
  | .resolve _ :: rest => stepsRequests rest

/-- The step sequence of one `fetch(path)` call on a fetcher built with
`baseURL`, whose network call settles with outcome `o`. -/
def fetchCallSteps {α ε : Type} (baseURL path : String)
    (o : FetchOutcome α ε) : List (FetchStep α ε) :=
  [.start (baseURL ++ path), .resolve o]

/-- `Interleaving xs ys zs`: `zs` is an order-preserving merge of `xs`
and `ys` (the possible event-loop schedules of two concurrent calls). -/
inductive Interleaving {τ : Type} : List τ → List τ → List τ → Prop where
  | nil : Interleaving [] [] []
  | cons_left {x : τ} {xs ys zs : List τ} :
      Interleaving xs ys zs → Interleaving (x :: xs) ys (x :: zs)
  | cons_right {y : τ} {xs ys zs : List τ} :
      Interleaving xs ys zs → Interleaving xs (y :: ys) (y :: zs)

/-- The single-call step semantics agrees with the detailed
`try`/`catch`/`finally` embedding: running the two atomic steps of one
call yields exactly the final state of `fetchStoreRun`, and the issued
requests agree. -/
theorem runFetchSteps_single {α ε : Type} (baseURL path : String)
    (s : FetchState α ε) (o : FetchOutcome α ε) :
    runFetchSteps s (fetchCallSteps baseURL path o)
      = (fetchStoreRun baseURL path s o).final
    ∧ stepsRequests (fetchCallSteps baseURL path o)
      = (fetchStoreRun baseURL path s o).requests := by
  cases o <;> exact ⟨rfl, rfl⟩

/-!
Title Holder (`titleStore` in the unnamed store file, `useTitle` in
`poke-hook`).  The observable state is the held `value` together with
the global `document.title`.  `autoEffect(() => (document.title =
title.value))` runs once at creation and again after every change of
`title.value`; the hook's `useEffect(..., [title])` does the same after
the render that follows a `title` change.
-/

/-- Held title value together with the DOM `document.title`. -/
structure TitleState where
  value : String
  docTitle : String
deriving DecidableEq, Repr

/-- A DOM change event: only `ev.target.value` is read. -/
structure ChangeEvent where
  targetValue : String
deriving DecidableEq, Repr

/-- The body of `autoEffect` / of the `useEffect` in `useTitle`:
`document.title = title.value`. -/
def titleEffect (t : TitleState) : TitleState :=
  { t with docTitle := t.value }

/-- `titleStore(initalTitle)`: the store starts with `value:
initalTitle` and the `autoEffect` runs immediately; `docBefore` is
whatever `document.title` held beforehand. -/
def titleStoreCreate (initalTitle docBefore : String) : TitleState :=
  titleEffect { value := initalTitle, docTitle := docBefore }

/-- `onChange: ev => (title.value = ev.target.value)` followed by the
reactive rerun of the `autoEffect`. -/
def titleStoreOnChange (ev : ChangeEvent) (t : TitleState) : TitleState :=
  titleEffect { t with value := ev.targetValue }

/-- `useTitle(initalTitle)`: `useState(initalTitle)` then the first
render's `useEffect` sets `document.title`. -/
def useTitleCreate (initalTitle docBefore : String) : TitleState :=
  titleEffect { value := initalTitle, docTitle := docBefore }

/-- `onChange = ev => setTitle(ev.target.value)` followed by the
`useEffect` rerun of the render caused by the state change. -/
def useTitleOnChange (ev : ChangeEvent) (t : TitleState) : TitleState :=
  titleEffect { t with value := ev.targetValue }

/-!
Claim theorems.
-/

/-- C1: for every base address and path, if the network call of
`fetch(path)` succeeds and its body decodes to `d`, then after `fetch`
resolves the state has `data = d`, `error` absent (cleared even if a
previous fetch had set it), and `loading = false`. -/
theorem fetch_success_sets_data_clears_error {α ε : Type}
    (baseURL path : String) (s : FetchState α ε) (d : α) :
    (fetchStoreRun baseURL path s (.success d)).final.data = some d
    ∧ (fetchStoreRun baseURL path s (.success d)).final.error = none
    ∧ (fetchStoreRun baseURL path s (.success d)).final.loading = some false :=
  ⟨rfl, rfl, rfl⟩

/-- C2: for every prior state and path, if the network call of
`fetch(path)` fails with `e`, then after `fetch` resolves `error = e`,
`loading = false`, and `data` is exactly its prior value. -/
theorem fetch_failure_sets_error_keeps_data {α ε : Type}
    (baseURL path : String) (s : FetchState α ε) (e : ε) :
    (fetchStoreRun baseURL path s (.failure e)).final.error = some e
    ∧ (fetchStoreRun baseURL path s (.failure e)).final.loading = some false
    ∧ (fetchStoreRun baseURL path s (.failure e)).final.data = s.data :=
  ⟨rfl, rfl, rfl⟩

/-- C3: for every base address `baseURL` and path `path`, `fetch(path)`
issues exactly one request, whose URL is the concatenation
`baseURL ++ path`, whatever the prior state and the outcome. -/
theorem fetch_issues_one_request_to_base_plus_path {α ε : Type}
    (baseURL path : String) (s : FetchState α ε) (o : FetchOutcome α ε) :
    (fetchStoreRun baseURL path s o).requests = [baseURL ++ path] :=
  rfl

/-- C4 counterexample: the claim says `loading` is false immediately
before every call, but before the first call on a freshly constructed
fetcher (the repository's own test scenario, payload and error type
`String`) `loading` is `undefined`, not `false`. -/
theorem loading_before_first_call_not_false :
    ¬ ((fetchStoreInit : FetchState String String).loading = some false) := by
  decide

/-- C4 amended: for every call to `fetch`, `loading` is true immediately
after the call is made and until the network call resolves, and
`loading` is false after the call completes, whether it succeeded or
failed; immediately before the first call `loading` is unset
(`undefined`, in particular not true) rather than false. -/
theorem loading_lifecycle {α ε : Type} (baseURL path : String)
    (s : FetchState α ε) (o : FetchOutcome α ε) :
    (fetchStoreRun baseURL path s o).pending.loading = some true
    ∧ (fetchStoreRun baseURL path s o).final.loading = some false
    ∧ (fetchStoreInit : FetchState α ε).loading ≠ some true := by
  refine ⟨rfl, ?_, fun h => Option.noConfusion h⟩
  cases o <;> rfl

/-- C5: for every path and every outcome of the network call (success or
thrown failure), the `fetch` operation never lets an exception escape its
boundary, in the store variant and in the hook variant alike. -/
theorem fetch_never_throws {α ε : Type} (baseURL path : String)
    (s : FetchState α ε) (o : FetchOutcome α ε) :
    (fetchStoreRun baseURL path s o).thrown = none
    ∧ (useFetchRun baseURL path s o).thrown = none := by
  cases o <;> exact ⟨rfl, rfl⟩

/-- C6: a freshly constructed Resource Fetcher, before any `fetch` call,
has `loading` unset (in particular not true), `data` absent and `error`
absent. -/
theorem fresh_fetcher_initial_state {α ε : Type} :
    (fetchStoreInit : FetchState α ε).loading = none
    ∧ (fetchStoreInit : FetchState α ε).loading ≠ some true
    ∧ (fetchStoreInit : FetchState α ε).data = none
    ∧ (fetchStoreInit : FetchState α ε).error = none :=
  ⟨rfl, fun h => Option.noConfusion h, rfl, rfl⟩

/-- C7: calling `fetch` again while a previous call is outstanding
starts a second concurrent request (both URLs are issued, nothing fails
or is cancelled); both event-loop schedules in which the two calls
overlap are genuine interleavings of the two calls' steps, and in each
the request whose network call settles last determines the final
`data` — so the last completion wins and there is no sequencing
guarantee between overlapping calls. -/
theorem overlapping_fetches_race {α ε : Type} (baseURL p1 p2 : String)
    (s : FetchState α ε) (d1 d2 : α) :
    Interleaving (fetchCallSteps (ε := ε) baseURL p1 (.success d1))
      (fetchCallSteps baseURL p2 (.success d2))
      [.start (baseURL ++ p1), .start (baseURL ++ p2),
        .resolve (.success d1), .resolve (.success d2)]
    ∧ Interleaving (fetchCallSteps (ε := ε) baseURL p1 (.success d1))
      (fetchCallSteps baseURL p2 (.success d2))
      [.start (baseURL ++ p1), .start (baseURL ++ p2),
        .resolve (.success d2), .resolve (.success d1)]
    ∧ stepsRequests (α := α) (ε := ε)
      [.start (baseURL ++ p1), .start (baseURL ++ p2),
        .resolve (.success d1), .resolve (.success d2)]
      = [baseURL ++ p1, baseURL ++ p2]
    ∧ (runFetchSteps s
      [.start (baseURL ++ p1), .start (baseURL ++ p2),
        .resolve (.success d1), .resolve (.success d2)]).data = some d2
    ∧ (runFetchSteps s
      [.start (baseURL ++ p1), .start (baseURL ++ p2),
        .resolve (.success d2), .resolve (.success d1)]).data = some d1 := by
  refine ⟨?_, ?_, rfl, rfl, rfl⟩
  · exact .cons_left (.cons_right (.cons_left (.cons_right .nil)))
  · exact .cons_left (.cons_right (.cons_right (.cons_left .nil)))

/-- C8: starting a fetch modifies only the `loading` flag: in the
pending phase (after `loading` is set true, before the network call
resolves) `data` and `error` hold exactly their prior values, in the
store variant and in the hook variant alike. -/
theorem pending_phase_preserves_data_error {α ε : Type}
    (baseURL path : String) (s : FetchState α ε) (o : FetchOutcome α ε) :
    (fetchStoreRun baseURL path s o).pending.data = s.data
    ∧ (fetchStoreRun baseURL path s o).pending.error = s.error
    ∧ (fetchStoreRun baseURL path s o).pending.loading = some true
    ∧ (useFetchRun baseURL path s o).pending.data = s.data
    ∧ (useFetchRun baseURL path s o).pending.error = s.error
    ∧ (useFetchRun baseURL path s o).pending.loading = some true :=
  ⟨rfl, rfl, rfl, rfl, rfl, rfl⟩

/-- C9: the store implementation and the hook implementation realize the
same fetch-state transition: same initial state, and for the same base
address, path, prior state and network outcome, identical pending state,
requests, final state, and escaping exception. -/
theorem store_and_hook_equivalent {α ε : Type} (baseURL path : String)
    (s : FetchState α ε) (o : FetchOutcome α ε) :
    fetchStoreRun baseURL path s o = useFetchRun baseURL path s o
    ∧ (fetchStoreInit : FetchState α ε) = useFetchInit := by
  refine ⟨?_, rfl⟩
  cases o <;> rfl

/-- C10: the Title Holder keeps `document.title` synchronized with its
held value: after a change event carrying target value `v` the held
value equals `v`, and after creation and after every change the document
title equals the held value — in the store variant (`titleStore`) and in
the hook variant (`useTitle`) alike. -/
theorem title_holder_sync (ev : ChangeEvent) (t : TitleState)
    (initalTitle docBefore : String) :
    (titleStoreOnChange ev t).value = ev.targetValue
    ∧ (titleStoreOnChange ev t).docTitle = (titleStoreOnChange ev t).value
    ∧ (titleStoreCreate initalTitle docBefore).docTitle
      = (titleStoreCreate initalTitle docBefore).value
    ∧ (useTitleOnChange ev t).value = ev.targetValue
    ∧ (useTitleOnChange ev t).docTitle = (useTitleOnChange ev t).value
    ∧ (useTitleCreate initalTitle docBefore).docTitle
      = (useTitleCreate initalTitle docBefore).value :=
  ⟨rfl, rfl, rfl, rfl, rfl, rfl⟩
